import Mathlib

/-!
Verification of the aidot Home Assistant integration
(`custom_components/aidot/__init__.py` and `custom_components/aidot/light.py`)
against its natural-language specification.

The two Python modules are shallowly embedded below: device, product and
configuration records become Lean structures with `Option` fields for keys
that may be absent; Python dictionaries become association lists; operations
that can raise (`dict.pop` without default, indexing `[0]` on a list) return
`Except`; the per-entity update loop is modelled as a step function over the
sequence of outcomes of `read_status`, recording the side effects of each
iteration as an explicit action list.
-/

/-- Outcome of one `await self.device_client.read_status()` call inside
`AidotLight._async_update_loop`: success, the `AidotNotLogin` exception,
or any other exception (carrying its message). -/
inductive ReadResult where
  | ok
  | notLogin
  | failure (msg : String)
deriving DecidableEq, Repr

/-- Observable side effects of one iteration of `_async_update_loop`. -/
inductive LoopAction where
  | readStatus
  | writeHaState
  | asyncLogin
  | logError (msg : String)
  | sleep (seconds : Nat)
deriving DecidableEq, Repr

/-- One iteration of the `while True` body of `AidotLight._async_update_loop`:
`try: read_status; write_ha_state  except AidotNotLogin: async_login
except Exception as e: log(e); sleep(5)`.  Returns the actions performed and
whether control falls through to the next iteration of the loop (no branch
of the body breaks, returns, or re-raises, so this is always `true`). -/
def loopIteration : ReadResult → List LoopAction × Bool
  | ReadResult.ok => ([LoopAction.readStatus, LoopAction.writeHaState], true)
  | ReadResult.notLogin => ([LoopAction.readStatus, LoopAction.asyncLogin], true)
  | ReadResult.failure msg =>
      ([LoopAction.readStatus, LoopAction.logError msg, LoopAction.sleep 5], true)

/-- Run `_async_update_loop` over a finite prefix of `read_status` outcomes.
Returns the concatenated actions and whether the loop is still running
(would execute a further iteration) after consuming the prefix. -/
def updateLoopRun : List ReadResult → List LoopAction × Bool
  | [] => ([], true)
  | r :: rs =>
      let step := loopIteration r
      if step.2 then
        let rest := updateLoopRun rs
        (step.1 ++ rest.1, rest.2)
      else
        (step.1, false)

/-- Whether `_async_update_loop` is still running after `n` iterations when
the successive `read_status` outcomes are given by `stream`. -/
def loopRunning (stream : Nat → ReadResult) (n : Nat) : Bool :=
  (updateLoopRun ((List.range n).map stream)).2

/-- The capability/identity record `device_client.info` of the external
device client, restricted to the fields `light.py` reads. -/
structure DeviceClientInfo where
  dev_id : String
  model_id : String
  mac : String
  name : String
  hw_version : String
  enable_rgbw : Bool
  enable_cct : Bool
  enable_dimming : Bool
  cct_min : Nat
  cct_max : Nat
deriving DecidableEq, Repr

/-- The status snapshot `device_client.status` of the external device
client, restricted to the fields `light.py` reads. -/
structure DeviceStatus where
  online : Bool
  «on» : Bool
  dimming : Nat
  cct : Nat
  rgbw : Nat × Nat × Nat × Nat
deriving DecidableEq, Repr

/-- The per-device client object as seen by the entity adapter. -/
structure DeviceClient where
  info : DeviceClientInfo
  status : DeviceStatus
deriving DecidableEq, Repr

/-- Home Assistant color modes used by `AidotLight.__init__`. -/
inductive ColorMode where
  | rgbw
  | colorTemp
  | brightness
  | onoff
deriving DecidableEq, Repr

/-- `AidotLight.__init__`: the `supported_color_modes` set, built as a list in
the order the Python code inserts into the set.  RGBW and COLOR_TEMP are added
for the corresponding capability flags; only if neither was added are ONOFF
and (when dimming is enabled) BRIGHTNESS added. -/
def supportedColorModes (info : DeviceClientInfo) : List ColorMode :=
  let s : List ColorMode := []
  let s := if info.enable_rgbw then s ++ [ColorMode.rgbw] else s
  let s := if info.enable_cct then s ++ [ColorMode.colorTemp] else s
  if s = [] then
    let s := [ColorMode.onoff]
    if info.enable_dimming then s ++ [ColorMode.brightness] else s
  else s

/-- `AidotLight.__init__`: the `_attr_color_mode` chosen by the cascade of
membership tests over `supported_color_modes`. -/
def colorMode (info : DeviceClientInfo) : ColorMode :=
  if ColorMode.rgbw ∈ supportedColorModes info then ColorMode.rgbw
  else if ColorMode.colorTemp ∈ supportedColorModes info then ColorMode.colorTemp
  else if ColorMode.brightness ∈ supportedColorModes info then ColorMode.brightness
  else ColorMode.onoff

/-- `AidotLight.available`: `return self.device_client.status.online`. -/
def AidotLight.available (dc : DeviceClient) : Bool :=
  dc.status.online

/-- `AidotLight.is_on`: `return self.device_client.status.on`. -/
def AidotLight.is_on (dc : DeviceClient) : Bool :=
  dc.status.«on»

/-- `AidotLight.brightness`: `return self.device_client.status.dimming`. -/
def AidotLight.brightness (dc : DeviceClient) : Nat :=
  dc.status.dimming

/-- `AidotLight.min_color_temp_kelvin`: `return self.device_client.info.cct_min`. -/
def AidotLight.min_color_temp_kelvin (dc : DeviceClient) : Nat :=
  dc.info.cct_min

/-- `AidotLight.max_color_temp_kelvin`: `return self.device_client.info.cct_max`. -/
def AidotLight.max_color_temp_kelvin (dc : DeviceClient) : Nat :=
  dc.info.cct_max

/-- `AidotLight.color_temp_kelvin`: `return self.device_client.status.cct`. -/
def AidotLight.color_temp_kelvin (dc : DeviceClient) : Nat :=
  dc.status.cct

/-- `AidotLight.rgbw_color`: `return self.device_client.status.rgbw`. -/
def AidotLight.rgbw_color (dc : DeviceClient) : Nat × Nat × Nat × Nat :=
  dc.status.rgbw

/-- A product record from the configured product list; `__init__.py` reads
only its `id` key (the rest is carried opaquely). -/
structure ProductRecord where
  id : String
  payload : String
deriving DecidableEq, Repr

/-- A device record from the configured device list, restricted to the keys
the two modules read.  `id`, `type` and `aesKey` are accessed with
`.get`/`in` and so may be absent (`Option`); `productId` is accessed with
`device["productId"]` and is modelled as always present; `product` is the
key the cross-referencing step may attach. -/
structure DeviceRecord where
  id : Option String
  productId : String
  type : Option String
  aesKey : Option (List (Option String))
  product : Option ProductRecord
deriving DecidableEq, Repr

/-- One pass of the inner loop of the cross-referencing step in
`async_setup_entry` for a single product: every device whose `productId`
equals the product's `id` gets the product stored under its `product` key. -/
def attachIfMatch (p : ProductRecord) (d : DeviceRecord) : DeviceRecord :=
  if d.productId = p.id then { d with product := some p } else d

/-- The cumulative effect on one device record of the outer loop
`for product in products`. -/
def attachProduct (products : List ProductRecord) (d : DeviceRecord) : DeviceRecord :=
  products.foldl (fun dev p => attachIfMatch p dev) d

/-- `async_setup_entry`, cross-referencing step:
`for product in products: for device in devices:
if device["productId"] == product["id"]: device["product"] = product`. -/
def crossReference (products : List ProductRecord) (devices : List DeviceRecord) :
    List DeviceRecord :=
  products.foldl (fun devs p => devs.map (attachIfMatch p)) devices

/-- A recorded call `device_client.update_ip_address(ip, manual=manual)`. -/
structure UpdateIpCall where
  devId : String
  ip : String
  manual : Bool
deriving DecidableEq, Repr

/-- The body of the manual-IP loop of `async_setup_entry` for a single
device: `dev_id = device.get("id")`; when it is a key of the map and the
mapped value is non-empty, `update_ip_address(ip_address, manual=True)` is
called on that device's client.  Returns that call, if any. -/
def manualIpCall (m : List (String × String)) (d : DeviceRecord) : Option UpdateIpCall :=
  match d.id with
  | none => none
  | some devId =>
      match m.lookup devId with
      | none => none
      | some ip => if ip = "" then none else some ⟨devId, ip, true⟩

/-- `async_setup_entry`, manual-IP step.  `manualIps` models
`entry.data.get(CONF_MANUAL_IPS)` (absent key → `none`); the Python
`if manual_ips:` truthiness test also skips an empty dict.  Returns the list
of `update_ip_address` calls made. -/
def applyManualIps (manualIps : Option (List (String × String)))
    (devices : List DeviceRecord) : List UpdateIpCall :=
  match manualIps with
  | none => []
  | some m =>
      if m.isEmpty then []
      else devices.filterMap (manualIpCall m)

/-- `light.py` `async_setup_entry`: the generator fed to
`async_add_entities` yields an `AidotLight` for each device with
`device_info.get("type") == "light" and "aesKey" in device_info and
device_info["aesKey"][0] is not None`, short-circuiting left to right.
`[0]` on an empty `aesKey` list raises `IndexError`, modelled as
`Except.error`.  Returns the devices for which an entity is created. -/
def lightEntityFilter : List DeviceRecord → Except String (List DeviceRecord)
  | [] => Except.ok []
  | d :: ds =>
      if d.type = some "light" then
        match d.aesKey with
        | none => lightEntityFilter ds
        | some [] => Except.error "IndexError"
        | some (none :: _) => lightEntityFilter ds
        | some (some _ :: _) =>
            match lightEntityFilter ds with
            | Except.error e => Except.error e
            | Except.ok rest => Except.ok (d :: rest)
      else lightEntityFilter ds

/-- The condition under which `light.py` `async_setup_entry` creates a light
entity for a device: `type` equals `"light"`, the `aesKey` key is present,
and the first element of the `aesKey` list exists and is not `None`. -/
def createsLightEntity (d : DeviceRecord) : Bool :=
  d.type == some "light" &&
    (match d.aesKey with
     | some (some _ :: _) => true
     | _ => false)

/-- The per-entry record stored in `hass.data[DOMAIN][entry.entry_id]` by
`async_setup_entry`: the client and the device list. -/
structure EntryData where
  client : String
  devices : List DeviceRecord
deriving DecidableEq, Repr

/-- `hass.data[DOMAIN]`: per-entry records keyed by entry id, plus the three
shared keys `CONF_DEVICE_LIST`, `CONF_LOGIN_INFO` and `CONF_PRODUCT_LIST`
(`Option` because `pop(key, None)` tolerates their absence). -/
structure HassDomainData where
  entries : List (String × EntryData)
  deviceList : Option (List DeviceRecord)
  loginInfo : Option String
  productList : Option (List ProductRecord)
deriving DecidableEq, Repr

/-- Side effects of `async_unload_entry` besides mutating `hass.data`. -/
inductive UnloadAction where
  | cleanupClient (client : String)
deriving DecidableEq, Repr

/-- `async_unload_entry`: given the result `unloadOk` of
`async_unload_platforms`, when it is true the entry's record is popped
(`pop(entry.entry_id)` raises `KeyError` when absent, modelled as
`Except.error`), `client.cleanup()` is called, and the three shared keys are
popped with a `None` default; when it is false nothing is touched.  Returns
the new data store, the actions performed, and the function's return value. -/
def async_unload_entry (unloadOk : Bool) (entryId : String) (data : HassDomainData) :
    Except String (HassDomainData × List UnloadAction × Bool) :=
  if unloadOk then
    match data.entries.lookup entryId with
    | none => Except.error "KeyError"
    | some ed =>
        Except.ok
          ({ entries := data.entries.filter (fun kv => !(kv.1 == entryId)),
             deviceList := none, loginInfo := none, productList := none },
           [UnloadAction.cleanupClient ed.client], true)
  else
    Except.ok (data, [], false)

/-- State of the polling task handle `self.update_task`. -/
inductive TaskState where
  | running
  | cancelled
deriving DecidableEq, Repr

/-- Lifecycle-relevant state of one `AidotLight` entity: the `update_task`
attribute (`none` models the attribute not being set, i.e. `hasattr` false)
and a counter of how many polling tasks `create_task` has produced for it. -/
structure EntityLifecycle where
  updateTask : Option TaskState
  tasksCreated : Nat
deriving DecidableEq, Repr

/-- An `AidotLight` as constructed by `__init__`: no `update_task` attribute
yet, no task created. -/
def initialEntityLifecycle : EntityLifecycle :=
  { updateTask := none, tasksCreated := 0 }

/-- `AidotLight.async_added_to_hass`: after logging in, one task running
`_async_update_loop` is created on the host loop and stored in
`self.update_task`. -/
def async_added_to_hass (s : EntityLifecycle) : EntityLifecycle :=
  { s with updateTask := some TaskState.running, tasksCreated := s.tasksCreated + 1 }

/-- `AidotLight.async_will_remove_from_hass`:
`if hasattr(self, "update_task"): self.update_task.cancel()`. -/
def async_will_remove_from_hass (s : EntityLifecycle) : EntityLifecycle :=
  match s.updateTask with
  | none => s
  | some _ => { s with updateTask := some TaskState.cancelled }

/-- A concrete product record used to instantiate the theorems below. -/
def sampleProduct : ProductRecord :=
  { id := "p1", payload := "bulb" }

/-- A concrete light device record matching `sampleProduct`. -/
def sampleDevice : DeviceRecord :=
  { id := some "d1", productId := "p1", type := some "light",
    aesKey := some [some "k1"], product := none }

/-- A concrete non-light device record with no matching product. -/
def sampleOtherDevice : DeviceRecord :=
  { id := some "d2", productId := "p2", type := some "switch",
    aesKey := none, product := none }

/-- A concrete per-entry record. -/
def sampleEntryData : EntryData :=
  { client := "client1", devices := [sampleDevice, sampleOtherDevice] }

/-- A concrete `hass.data[DOMAIN]` store holding one entry. -/
def sampleHassData : HassDomainData :=
  { entries := [("entry1", sampleEntryData)],
    deviceList := some [sampleDevice, sampleOtherDevice],
    loginInfo := some "token1",
    productList := some [sampleProduct] }

/-- The loop survives every finite prefix of outcomes. -/
theorem updateLoopRun_snd_true (rs : List ReadResult) : (updateLoopRun rs).2 = true := by
  induction rs with
  | nil => rfl
  | cons r rs ih =>
      cases r <;> simpa [updateLoopRun, loopIteration] using ih

/-- C1: when `read_status` raises `AidotNotLogin`, the loop's handler calls
`device_client.async_login()` and control continues to the next iteration;
for any sequence of outcomes (in particular one containing such login
failures) the loop is still running after any finite prefix. -/
theorem notLogin_reauth_and_loop_survives (rs : List ReadResult) :
    loopIteration ReadResult.notLogin =
      ([LoopAction.readStatus, LoopAction.asyncLogin], true) ∧
    (updateLoopRun rs).2 = true :=
  ⟨rfl, updateLoopRun_snd_true rs⟩

/-- C2: every exception other than `AidotNotLogin` is logged, followed by a
fixed 5-second sleep, and control continues to the next iteration; the
handling does not depend on the exception beyond its logged message, and for
any outcome sequence the loop keeps retrying (is never left). -/
theorem other_exceptions_logged_and_retried (msg : String) (rs : List ReadResult) :
    loopIteration (ReadResult.failure msg) =
      ([LoopAction.readStatus, LoopAction.logError msg, LoopAction.sleep 5], true) ∧
    (updateLoopRun rs).2 = true :=
  ⟨rfl, updateLoopRun_snd_true rs⟩

/-- C8 counterexample: with every `read_status` call succeeding, there is no
iteration count after which the loop has stopped — the loop does not perform
only finitely many iterations. -/
theorem update_loop_not_bounded :
    ¬ ∃ n : Nat, loopRunning (fun _ => ReadResult.ok) n = false := by
  rintro ⟨n, hn⟩
  rw [loopRunning, updateLoopRun_snd_true] at hn
  exact absurd hn (by simp)

/-- C8 (amended): the polling loop is unbounded — after any finite number of
iterations, for any sequence of `read_status` outcomes, it is still running;
it only stops by external cancellation of its task. -/
theorem update_loop_unbounded (stream : Nat → ReadResult) (n : Nat) :
    loopRunning stream n = true :=
  updateLoopRun_snd_true _

/-- C3: the entity's color mode follows the strict precedence
RGBW > color-temperature > brightness > on/off over the device capability
flags. -/
theorem color_mode_precedence (info : DeviceClientInfo) :
    colorMode info =
      if info.enable_rgbw then ColorMode.rgbw
      else if info.enable_cct then ColorMode.colorTemp
      else if info.enable_dimming then ColorMode.brightness
      else ColorMode.onoff := by
  rcases info with ⟨_, _, _, _, _, rgbw, cct, dim, _, _⟩
  cases rgbw <;> cases cct <;> cases dim <;> rfl

/-- C6: every state property of the light entity mirrors the device client's
current status snapshot, and the color-temperature bounds mirror the client's
info record. -/
theorem entity_properties_mirror_client (dc : DeviceClient) :
    AidotLight.is_on dc = dc.status.«on» ∧
    AidotLight.brightness dc = dc.status.dimming ∧
    AidotLight.color_temp_kelvin dc = dc.status.cct ∧
    AidotLight.rgbw_color dc = dc.status.rgbw ∧
    AidotLight.available dc = dc.status.online ∧
    AidotLight.min_color_temp_kelvin dc = dc.info.cct_min ∧
    AidotLight.max_color_temp_kelvin dc = dc.info.cct_max :=
  ⟨rfl, rfl, rfl, rfl, rfl, rfl, rfl⟩

/-- Inversion of the per-device manual-IP step. -/
theorem manualIpCall_eq_some_iff (m : List (String × String)) (d : DeviceRecord)
    (c : UpdateIpCall) :
    manualIpCall m d = some c ↔
      d.id = some c.devId ∧ m.lookup c.devId = some c.ip ∧ c.ip ≠ "" ∧ c.manual = true := by
  obtain ⟨cid, cip, cman⟩ := c
  simp only [manualIpCall]
  constructor
  · intro h
    split at h
    · exact absurd h (by simp)
    · rename_i i hid
      split at h
      · exact absurd h (by simp)
      · rename_i ip hlk
        split at h
        · exact absurd h (by simp)
        · rename_i hip
          simp only [Option.some.injEq, UpdateIpCall.mk.injEq] at h
          obtain ⟨rfl, rfl, rfl⟩ := h
          exact ⟨hid, hlk, hip, rfl⟩
  · rintro ⟨hid, hlk, hip, rfl⟩
    simp only [hid, hlk]
    rw [if_neg hip]

/-- C4: a call `update_ip_address(ip, manual=True)` is made for a device id
during setup if and only if some device in the device list has that id, the
id is a key of the manual-IP override map, and the mapped value is the
non-empty ip of the call; with no override map configured no call is made. -/
theorem manual_ip_override_iff (m : List (String × String)) (devices : List DeviceRecord)
    (c : UpdateIpCall) :
    applyManualIps none devices = [] ∧
    (c ∈ applyManualIps (some m) devices ↔
      (∃ d ∈ devices, d.id = some c.devId) ∧ m.lookup c.devId = some c.ip ∧
        c.ip ≠ "" ∧ c.manual = true) := by
  refine ⟨rfl, ?_⟩
  show c ∈ (if m.isEmpty then [] else devices.filterMap (manualIpCall m)) ↔ _
  by_cases hm : m.isEmpty
  · rw [if_pos hm]
    rw [List.isEmpty_iff] at hm
    subst hm
    simp [List.lookup]
  · rw [if_neg hm, List.mem_filterMap]
    constructor
    · rintro ⟨d, hd, hfd⟩
      rw [manualIpCall_eq_some_iff] at hfd
      exact ⟨⟨d, hd, hfd.1⟩, hfd.2⟩
    · rintro ⟨⟨d, hd, hid⟩, hlk, hip, hman⟩
      exact ⟨d, hd, (manualIpCall_eq_some_iff m d c).mpr ⟨hid, hlk, hip, hman⟩⟩

/-- `attachIfMatch` never changes `productId`. -/
theorem attachIfMatch_productId (p : ProductRecord) (d : DeviceRecord) :
    (attachIfMatch p d).productId = d.productId := by
  unfold attachIfMatch
  split <;> rfl

/-- Unfolding one product of the outer loop. -/
theorem attachProduct_cons (p : ProductRecord) (ps : List ProductRecord) (d : DeviceRecord) :
    attachProduct (p :: ps) d = attachProduct ps (attachIfMatch p d) :=
  rfl

/-- `attachProduct` never changes `productId`. -/
theorem attachProduct_productId (products : List ProductRecord) :
    ∀ d : DeviceRecord, (attachProduct products d).productId = d.productId := by
  induction products with
  | nil => intro d; rfl
  | cons p ps ih =>
      intro d
      rw [attachProduct_cons, ih, attachIfMatch_productId]

/-- A device matching no product is left untouched by the outer loop. -/
theorem attachProduct_no_match (products : List ProductRecord) :
    ∀ d : DeviceRecord, (∀ p ∈ products, p.id ≠ d.productId) →
      attachProduct products d = d := by
  induction products with
  | nil => intro d _; rfl
  | cons p ps ih =>
      intro d h
      rw [attachProduct_cons]
      have hpd : attachIfMatch p d = d := by
        unfold attachIfMatch
        exact if_neg fun he => h p (List.mem_cons_self p ps) he.symm
      rw [hpd]
      exact ih d fun q hq => h q (List.mem_cons_of_mem p hq)

/-- A device matching some product ends up carrying a matching product. -/
theorem attachProduct_match (products : List ProductRecord) :
    ∀ d : DeviceRecord, (∃ p ∈ products, p.id = d.productId) →
      ∃ p ∈ products, p.id = d.productId ∧ (attachProduct products d).product = some p := by
  induction products with
  | nil =>
      rintro d ⟨p, hp, _⟩
      exact absurd hp (List.not_mem_nil p)
  | cons p ps ih =>
      intro d hex
      by_cases hps : ∃ q ∈ ps, q.id = d.productId
      · obtain ⟨q, hq, hqid⟩ := hps
        have hpid : (attachIfMatch p d).productId = d.productId := attachIfMatch_productId p d
        obtain ⟨r, hr, hrid, hrprod⟩ :=
          ih (attachIfMatch p d) ⟨q, hq, by rw [hpid]; exact hqid⟩
        rw [attachProduct_cons]
        exact ⟨r, List.mem_cons_of_mem p hr, by rw [← hpid]; exact hrid, hrprod⟩
      · obtain ⟨q, hq, hqid⟩ := hex
        rcases List.mem_cons.mp hq with rfl | hq'
        · have hmatch : attachIfMatch q d = { d with product := some q } := by
            unfold attachIfMatch
            exact if_pos hqid.symm
          rw [attachProduct_cons, hmatch]
          rw [attachProduct_no_match ps { d with product := some q }
                fun r hr he => hps ⟨r, hr, he⟩]
          exact ⟨q, List.mem_cons_self q ps, hqid, rfl⟩
        · exact absurd ⟨q, hq', hqid⟩ hps

/-- The nested loops act on each device record independently. -/
theorem crossReference_eq_map (products : List ProductRecord) :
    ∀ devices : List DeviceRecord,
      crossReference products devices = devices.map (attachProduct products) := by
  induction products with
  | nil =>
      intro devices
      show devices = devices.map (attachProduct [])
      rw [show attachProduct [] = id from rfl, List.map_id]
  | cons p ps ih =>
      intro devices
      show crossReference ps (devices.map (attachIfMatch p)) = _
      rw [ih, List.map_map]
      rfl

/-- C5: after the cross-referencing step of `async_setup_entry`, every device
record whose `productId` equals some product record's `id` carries such a
matching product record under its `product` key, while a device record
matched by no product keeps no `product` key (given that no device had one
to begin with, as config-entry data contains none). -/
theorem device_product_crossref (products : List ProductRecord) (devices : List DeviceRecord)
    (hinit : ∀ d ∈ devices, d.product = none) :
    ∀ dr ∈ crossReference products devices,
      ((∃ p ∈ products, p.id = dr.productId) →
        ∃ p ∈ products, p.id = dr.productId ∧ dr.product = some p) ∧
      ((∀ p ∈ products, p.id ≠ dr.productId) → dr.product = none) := by
  intro dr hdr
  rw [crossReference_eq_map] at hdr
  obtain ⟨d, hd, rfl⟩ := List.mem_map.mp hdr
  constructor
  · intro hex
    have hex' : ∃ p ∈ products, p.id = d.productId := by
      rwa [attachProduct_productId] at hex
    obtain ⟨p, hp, hpid, hprod⟩ := attachProduct_match products d hex'
    refine ⟨p, hp, ?_, hprod⟩
    rw [attachProduct_productId]
    exact hpid
  · intro hno
    have hno' : ∀ p ∈ products, p.id ≠ d.productId := by
      intro p hp
      have := hno p hp
      rwa [attachProduct_productId] at this
    rw [attachProduct_no_match products d hno']
    exact hinit d hd

/-- Witness for C5 on concrete records: `sampleDevice` matches
`sampleProduct` and gets it attached; `sampleOtherDevice` matches nothing
and keeps no product. -/
theorem device_product_crossref_witness :
    (∀ d ∈ [sampleDevice, sampleOtherDevice], d.product = none) ∧
    ∀ dr ∈ crossReference [sampleProduct] [sampleDevice, sampleOtherDevice],
      ((∃ p ∈ [sampleProduct], p.id = dr.productId) →
        ∃ p ∈ [sampleProduct], p.id = dr.productId ∧ dr.product = some p) ∧
      ((∀ p ∈ [sampleProduct], p.id ≠ dr.productId) → dr.product = none) :=
  ⟨by decide,
   device_product_crossref [sampleProduct] [sampleDevice, sampleOtherDevice] (by decide)⟩

/-- C9: whenever the light-platform setup completes without raising, the
entities it created correspond exactly to the devices whose `type` is
`"light"`, that have an `aesKey` key, and whose `aesKey` first element is
not `None`; every other device record yields no light entity. -/
theorem light_setup_entities_iff (devices es : List DeviceRecord)
    (h : lightEntityFilter devices = Except.ok es) :
    es = devices.filter createsLightEntity := by
  induction devices generalizing es with
  | nil =>
      simp only [lightEntityFilter, Except.ok.injEq] at h
      rw [← h]
      rfl
  | cons d ds ih =>
      by_cases ht : d.type = some "light"
      · cases haes : d.aesKey with
        | none =>
            rw [lightEntityFilter, if_pos ht, haes] at h
            rw [ih es h, List.filter_cons_of_neg]
            simp [createsLightEntity, haes]
        | some l =>
            cases l with
            | nil =>
                rw [lightEntityFilter, if_pos ht, haes] at h
                exact absurd h (by simp)
            | cons k t =>
                cases k with
                | none =>
                    rw [lightEntityFilter, if_pos ht, haes] at h
                    rw [ih es h, List.filter_cons_of_neg]
                    simp [createsLightEntity, haes]
                | some key =>
                    rw [lightEntityFilter, if_pos ht, haes] at h
                    cases hrest : lightEntityFilter ds with
                    | error e =>
                        rw [hrest] at h
                        exact absurd h (by simp)
                    | ok rest =>
                        rw [hrest] at h
                        simp only [Except.ok.injEq] at h
                        rw [← h, ih rest hrest, List.filter_cons_of_pos]
                        simp [createsLightEntity, ht, haes]
      · rw [lightEntityFilter, if_neg ht] at h
        rw [ih es h, List.filter_cons_of_neg]
        simp [createsLightEntity, ht]

/-- Witness for C9 on a concrete device list: the light device with a usable
aes key yields an entity, the switch device does not. -/
theorem light_setup_entities_iff_witness :
    lightEntityFilter [sampleDevice, sampleOtherDevice] = Except.ok [sampleDevice] ∧
    [sampleDevice] = List.filter createsLightEntity [sampleDevice, sampleOtherDevice] :=
  ⟨rfl, light_setup_entities_iff [sampleDevice, sampleOtherDevice] [sampleDevice] rfl⟩

/-- C10: `async_unload_entry` with a failed platform unload returns `False`
and leaves `hass.data[DOMAIN]` untouched, performing no cleanup; with a
successful platform unload it pops the entry's record, calls
`client.cleanup()` on that record's client, removes the shared device-list,
login-info and product-list keys, and returns `True`. -/
theorem unload_entry_spec (entryId : String) (data : HassDomainData) (ed : EntryData)
    (h : data.entries.lookup entryId = some ed) :
    async_unload_entry false entryId data = Except.ok (data, [], false) ∧
    async_unload_entry true entryId data =
      Except.ok
        ({ entries := data.entries.filter (fun kv => !(kv.1 == entryId)),
           deviceList := none, loginInfo := none, productList := none },
         [UnloadAction.cleanupClient ed.client], true) := by
  refine ⟨rfl, ?_⟩
  simp [async_unload_entry, h]

/-- Witness for C10 on a concrete data store holding one entry. -/
theorem unload_entry_spec_witness :
    async_unload_entry false "entry1" sampleHassData = Except.ok (sampleHassData, [], false) ∧
    async_unload_entry true "entry1" sampleHassData =
      Except.ok
        ({ entries := sampleHassData.entries.filter (fun kv => !(kv.1 == "entry1")),
           deviceList := none, loginInfo := none, productList := none },
         [UnloadAction.cleanupClient sampleEntryData.client], true) :=
  unload_entry_spec "entry1" sampleHassData sampleEntryData (by decide)

/-- C7: `async_added_to_hass` stores exactly one freshly created polling task
in `update_task` (one more task than existed before; exactly one from the
initial state), and `async_will_remove_from_hass` cancels the stored task,
while on an entity whose task attribute was never set it does nothing. -/
theorem entity_task_lifecycle (s : EntityLifecycle) :
    (async_added_to_hass s).updateTask = some TaskState.running ∧
    (async_added_to_hass s).tasksCreated = s.tasksCreated + 1 ∧
    (async_added_to_hass initialEntityLifecycle).tasksCreated = 1 ∧
    async_will_remove_from_hass (async_added_to_hass s) =
      { s with updateTask := some TaskState.cancelled,
               tasksCreated := s.tasksCreated + 1 } ∧
    async_will_remove_from_hass { s with updateTask := none } =
      { s with updateTask := none } :=
  ⟨rfl, rfl, rfl, rfl, rfl⟩
